import Mathlib

/-!
Verification of the archoffline build pipeline (src/offline.py) against its
natural-language specification.  The Python source is shallowly embedded:
pure logic becomes Lean functions, filesystem / process effects become
explicit parameters and result ADTs, Python exceptions become `Except` or
explicit outcome constructors.
-/

/- ---------------------------------------------------------------------- -/
/- String helpers mirroring Python's str.startswith / endswith / `in`.    -/
/- ---------------------------------------------------------------------- -/

/-- Python `s.startswith(p)`: `p` is a leading run of `s`. -/
def strStartsWith (p s : String) : Bool :=
  p.data.isPrefixOf s.data

/-- Python `s.endswith(p)`: `p` is a trailing run of `s`. -/
def strEndsWith (p s : String) : Bool :=
  p.data.reverse.isPrefixOf s.data.reverse

/-- Contiguous-sublist test on character lists. -/
def charsContain (needle : List Char) : List Char → Bool
  | [] => needle.isEmpty
  | c :: rest => needle.isPrefixOf (c :: rest) || charsContain needle rest

/-- Python `needle in hay` on strings (contiguous substring test). -/
def strContainsSub (needle hay : String) : Bool :=
  charsContain needle.data hay.data

/-- First character of a string, used to separate literal-shaped lines. -/
def lineHead (s : String) : Option Char :=
  s.data.head?

/- ---------------------------------------------------------------------- -/
/- PackageListing (src/offline.py lines 154-188)                          -/
/- ---------------------------------------------------------------------- -/

/-- A Python value passed as the right operand of `PackageListing.__add__`:
either a reference to another `PackageListing` object (a heap address) or
any non-`PackageListing` value. -/
inductive PyObj where
  | listingRef (a : Nat)
  | nonListing
deriving DecidableEq

/-- The error raised by the listing operations: the source raises
`ValueError(...)` in `__add__` and in the `inventory` setter. -/
inductive PyErr where
  | valueError (msg : String)
deriving DecidableEq

/-- A heap mapping `PackageListing` object addresses to their `_inventory`
field, so that mutation-in-place and aliasing are observable. -/
def Heap : Type := Nat → List String

/-- Point update of the heap, modelling assignment to one object's field. -/
def heapUpdate (h : Heap) (a : Nat) (l : List String) : Heap :=
  fun x => if x = a then l else h x

/-- `PackageListing.__add__` (src/offline.py lines 158-163): raises
`ValueError` unless the operand is a `PackageListing`; otherwise executes
`self._inventory += obj._inventory` (in-place extension of the left
operand's inventory) and returns `self` (the same address). -/
def listing_add (h : Heap) (self : Nat) (obj : PyObj) : Except PyErr (Heap × Nat) :=
  match obj with
  | .nonListing =>
      .error (.valueError "PackageListing requires addition object to be of PackageListing() too")
  | .listingRef b =>
      .ok (heapUpdate h self (h self ++ h b), self)

/-- `PackageListing.__len__` (src/offline.py lines 165-166). -/
def listing_len (h : Heap) (a : Nat) : Nat :=
  (h a).length

/-- An element of the Python list handed to the `inventory` setter: either
a `str` or a value of some other type. -/
inductive PyItem where
  | str (s : String)
  | nonStr
deriving DecidableEq

/-- Whether an element is a Python `str` (`type(val) != str` test). -/
def PyItem.isStr : PyItem → Bool
  | .str _ => true
  | .nonStr => false

/-- Underlying string of an element, when it is one. -/
def PyItem.asStr : PyItem → Option String
  | .str s => some s
  | .nonStr => none

/-- The value assigned to `PackageListing.inventory`: either a Python list
of elements or a value that is not a list (`type(value) != list`). -/
inductive PyVal where
  | pylist (items : List PyItem)
  | notList
deriving DecidableEq

/-- Outcome of the `inventory` setter: `raisedValueError` models the two
`raise ValueError(...)` sites, `exitedValidation` models the `exit(1)` after
`archinstall.validate_package_list` rejects, `okSet` models reaching the
final `self._inventory = value`. -/
inductive SetOutcome where
  | raisedValueError
  | exitedValidation
  | okSet
deriving DecidableEq

/-- `PackageListing.inventory` setter (src/offline.py lines 172-188).
`skipValidationArg` is the truthiness of
`archinstall.arguments.get('skip-validation', False) is not False` (the
external validation runs exactly when that flag is present);
`validatorAccepts` abstracts `archinstall.validate_package_list` (true =
no `RequirementError`).  Returns the outcome together with the inventory
after the call (unchanged on every non-`okSet` path, since both raises and
the exit happen before `self._inventory = value`). -/
def inventory_set (skipValidationArg : Bool) (validatorAccepts : List String → Bool)
    (current : List String) (value : PyVal) : SetOutcome × List String :=
  match value with
  | .notList => (.raisedValueError, current)
  | .pylist items =>
      if items.any (fun i => ! i.isStr) then
        (.raisedValueError, current)
      else
        let strs := items.filterMap PyItem.asStr
        if skipValidationArg then
          if validatorAccepts strs then (.okSet, strs) else (.exitedValidation, current)
        else
          (.okSet, strs)

/-- True when the supplied value would trip one of the two `ValueError`
raises of the setter: not a list, or containing a non-`str` element. -/
def pyvalIllTyped : PyVal → Bool
  | .notList => true
  | .pylist items => items.any (fun i => ! i.isStr)

/-- Modelled from the spec: the accepted package-name pattern
"alphanumeric, '-', '_'" that the specification claims the setter
enforces.  The source never checks it; this definition exists only to
state that claim and compare it with the source's behaviour. -/
def specPkgNamePattern (s : String) : Bool :=
  decide (s ≠ "") && s.data.all (fun c => c.isAlphanum || c = '-' || c = '_')

/-- `BobTheBuilder.write_packages_to_package_file`
(src/offline.py lines 468-476): writes one line `f"{package}\n"` per
official package, in order, then one per AUR package, in order. -/
def write_packages_to_package_file (packages aur_packages : List String) : List String :=
  packages.map (fun p => p ++ "\n") ++ aur_packages.map (fun p => p ++ "\n")

/- ---------------------------------------------------------------------- -/
/- Theorems about PackageListing                                          -/
/- ---------------------------------------------------------------------- -/

lemma filterMap_asStr_comp (strs : List String) :
    List.filterMap (PyItem.asStr ∘ PyItem.str) strs = strs := by
  induction strs with
  | nil => rfl
  | cons s rest ih => simp [PyItem.asStr, Function.comp, ih]

/-- C8: concatenating listing A (n items) with listing B (m items) yields a
listing of n+m items, A's items first in their original order followed by
B's in theirs, and the operation fails (with the source's
`ValueError`, serving as the claimed TypeError-equivalent) when the right
operand is not a `PackageListing`. -/
theorem listing_add_concat (h : Heap) (a b : Nat) :
    (∃ h2 : Heap, listing_add h a (.listingRef b) = .ok (h2, a)
      ∧ h2 a = h a ++ h b
      ∧ listing_len h2 a = listing_len h a + listing_len h b)
    ∧ (∃ e : PyErr, listing_add h a .nonListing = .error e) := by
  constructor
  · refine ⟨heapUpdate h a (h a ++ h b), rfl, ?_, ?_⟩
    · simp [heapUpdate]
    · simp [listing_len, heapUpdate]
  · exact ⟨.valueError "PackageListing requires addition object to be of PackageListing() too", rfl⟩

/-- C10: `PackageListing.__add__` mutates its left operand in place and
returns that very object: the returned address is the left operand's
address, the left operand's inventory afterwards is A's items followed by
B's, and no other object in the heap is touched (no fresh listing is
allocated). -/
theorem listing_add_aliases_self (h : Heap) (a b : Nat) (h2 : Heap) (r : Nat)
    (hres : listing_add h a (.listingRef b) = .ok (h2, r)) :
    r = a ∧ h2 a = h a ++ h b ∧ ∀ x : Nat, x ≠ a → h2 x = h x := by
  have hinj : h2 = heapUpdate h a (h a ++ h b) ∧ r = a := by
    have := hres
    simp [listing_add] at this
    exact ⟨this.1.symm, this.2.symm⟩
  obtain ⟨rfl, rfl⟩ := hinj
  refine ⟨rfl, ?_, ?_⟩
  · simp [heapUpdate]
  · intro x hx
    simp [heapUpdate, hx]

/-- Example heap: object 0 holds ["a1", "a2"], object 1 holds ["b1"]. -/
def exHeap : Heap :=
  fun x => if x = 0 then ["a1", "a2"] else if x = 1 then ["b1"] else []

/-- C10 witness: evaluating `__add__` on the concrete heap `exHeap` at
addresses 0 and 1 shows the left operand itself now holds the
concatenation. -/
theorem listing_add_aliases_self_witness :
    (heapUpdate exHeap 0 (exHeap 0 ++ exHeap 1)) 0 = ["a1", "a2", "b1"] := by
  have h := listing_add_aliases_self exHeap 0 1
    (heapUpdate exHeap 0 (exHeap 0 ++ exHeap 1)) 0 rfl
  exact h.2.1.trans (by rfl)

/-- C2 counterexample: with external validation not enabled, the string
"bad name!!" does not match the accepted package-name pattern, yet
assignment succeeds and stores it: the setter never enforces the pattern
(it only checks `type(val) != str`), so the claimed "fails exactly when
some value does not match the pattern" is false. -/
theorem inventory_set_pattern_not_enforced :
    specPkgNamePattern "bad name!!" = false
    ∧ inventory_set false (fun _ => true) [] (.pylist [.str "bad name!!"])
        = (.okSet, ["bad name!!"]) := by
  constructor
  · decide
  · rfl

/-- C2 (amended): assignment raises `ValueError` exactly when the supplied
value is not a list or contains a non-string element (the package-name
pattern is never checked); when the validation flag is set, rejection by
the external validator terminates the process, leaving the inventory
unchanged; every plain list of strings with validation disabled (or
accepted by the validator) is stored as-is, and the serialized package
file lists the stored packages in their original order. -/
theorem inventory_set_characterization (skip : Bool) (validatorAccepts : List String → Bool)
    (cur strs aur : List String) (value : PyVal) :
    ((inventory_set skip validatorAccepts cur value).fst = .raisedValueError
        ↔ pyvalIllTyped value = true)
    ∧ inventory_set false validatorAccepts cur (.pylist (strs.map PyItem.str))
        = (.okSet, strs)
    ∧ inventory_set true validatorAccepts cur (.pylist (strs.map PyItem.str))
        = (if validatorAccepts strs then (.okSet, strs) else (.exitedValidation, cur))
    ∧ write_packages_to_package_file strs aur
        = strs.map (fun p => p ++ "\n") ++ aur.map (fun p => p ++ "\n") := by
  refine ⟨?_, ?_, ?_, rfl⟩
  · constructor
    · intro hr
      cases value with
      | notList => rfl
      | pylist items =>
          cases hb : items.any (fun i => ! i.isStr) with
          | true => simpa [pyvalIllTyped] using hb
          | false =>
            exfalso
            simp only [inventory_set, hb, Bool.false_eq_true, if_false] at hr
            cases hs : skip with
            | true =>
              subst hs
              cases hv : validatorAccepts (items.filterMap PyItem.asStr) with
              | true => simp [hv] at hr
              | false => simp [hv] at hr
            | false =>
              subst hs
              simp at hr
    · intro hb
      cases value with
      | notList => rfl
      | pylist items =>
          have hb' : items.any (fun i => ! i.isStr) = true := by
            simpa [pyvalIllTyped] using hb
          simp [inventory_set, hb']
  · have hall : (strs.map PyItem.str).any (fun i => ! i.isStr) = false := by
      simp [List.any_map, Function.comp, PyItem.isStr]
    simp [inventory_set, hall, filterMap_asStr_comp]
  · have hall : (strs.map PyItem.str).any (fun i => ! i.isStr) = false := by
      simp [List.any_map, Function.comp, PyItem.isStr]
    cases hv : validatorAccepts strs with
    | true => simp [inventory_set, hall, filterMap_asStr_comp, hv]
    | false => simp [inventory_set, hall, filterMap_asStr_comp, hv]

/-- C2 witness: a concrete all-string list is stored verbatim, in order. -/
theorem inventory_set_characterization_witness :
    inventory_set false (fun _ => true) ["old"] (.pylist [.str "nano", .str "wget"])
      = (.okSet, ["nano", "wget"]) := by
  have h := inventory_set_characterization false (fun _ => true) ["old"]
    ["nano", "wget"] [] (.pylist [.str "nano", .str "wget"])
  exact h.2.1

/-- C3: whenever the `inventory` setter fails (either `ValueError` raise,
or the process exit after external validation rejects), the previously
stored inventory is left completely unchanged: validation is all-or-nothing
over the supplied list. -/
theorem inventory_set_atomic (skip : Bool) (validatorAccepts : List String → Bool)
    (cur : List String) (value : PyVal)
    (h : (inventory_set skip validatorAccepts cur value).fst ≠ .okSet) :
    (inventory_set skip validatorAccepts cur value).snd = cur := by
  cases value with
  | notList => rfl
  | pylist items =>
      cases hb : items.any (fun i => ! i.isStr) with
      | true => simp [inventory_set, hb]
      | false =>
        cases hs : skip with
        | true =>
          subst hs
          cases hv : validatorAccepts (items.filterMap PyItem.asStr) with
          | true =>
            exfalso
            apply h
            simp [inventory_set, hb, hv]
          | false => simp [inventory_set, hb, hv]
        | false =>
          exfalso
          apply h
          subst hs
          simp [inventory_set, hb]

/-- C3 witness: a failing assignment (non-list value) at a concrete prior
inventory leaves that inventory intact. -/
theorem inventory_set_atomic_witness :
    (inventory_set false (fun _ => true) ["keep"] .notList).snd = ["keep"] := by
  exact inventory_set_atomic false (fun _ => true) ["keep"] .notList (by decide)

/- ---------------------------------------------------------------------- -/
/- insert_autorun_string (src/offline.py lines 563-572)                   -/
/- ---------------------------------------------------------------------- -/

/-- Outcome of `BobTheBuilder.insert_autorun_string`: `noop` models the
early `return` on a falsy string, `fatalQuote` models the `exit(1)` taken
before any file is opened, `wrote` carries the exact `.zprofile` content
written. -/
inductive AutorunResult where
  | noop
  | fatalQuote
  | wrote (content : String)
deriving DecidableEq

/-- The boot-time snippet written for the autorun command `s`. -/
def autorunSnippet (s : String) : String :=
  "[[ -z $DISPLAY && $XDG_VTNR -eq 1 ]] && sh -c \"" ++ s ++ "\""

/-- `BobTheBuilder.insert_autorun_string` (src/offline.py lines 563-572):
returns on an empty (falsy) string; exits fatally when the string contains
a double-quote, before the file is opened; otherwise writes the snippet. -/
def insert_autorun_string (s : String) : AutorunResult :=
  if s = "" then .noop
  else if s.data.contains '"' then .fatalQuote
  else .wrote (autorunSnippet s)

/-- C9: an autorun string containing a double-quote is rejected with a
fatal error before any file is written (the result is `fatalQuote`, not a
`wrote`), and every non-empty string without a double-quote produces
exactly the snippet
`[[ -z $DISPLAY && $XDG_VTNR -eq 1 ]] && sh -c "<string>"`. -/
theorem insert_autorun_string_guard (s : String) (hne : s ≠ "") :
    (s.data.contains '"' = true → insert_autorun_string s = .fatalQuote)
    ∧ (s.data.contains '"' = false →
        insert_autorun_string s = .wrote (autorunSnippet s)) := by
  constructor
  · intro hq
    unfold insert_autorun_string
    rw [if_neg hne, if_pos hq]
  · intro hq
    have hq' : ¬ (s.data.contains '"' = true) := by
      rw [hq]
      exact Bool.false_ne_true
    unfold insert_autorun_string
    rw [if_neg hne, if_neg hq']

/-- C9 witness: a concrete quoted string is rejected, and a concrete clean
string yields the exact snippet. -/
theorem insert_autorun_string_guard_witness :
    insert_autorun_string "echo \"hi\"" = .fatalQuote
    ∧ insert_autorun_string "systemctl start foo"
        = .wrote "[[ -z $DISPLAY && $XDG_VTNR -eq 1 ]] && sh -c \"systemctl start foo\"" := by
  constructor
  · exact (insert_autorun_string_guard "echo \"hi\"" (by decide)).1 (by decide)
  · exact (insert_autorun_string_guard "systemctl start foo" (by decide)).2 (by decide)

/- ---------------------------------------------------------------------- -/
/- copy_in_external_resources (src/offline.py lines 521-550)              -/
/- ---------------------------------------------------------------------- -/

/-- The action the resource-staging loop takes for one descriptor. -/
inductive ResourceAction where
  | skipEmpty
  | skipUnrecognized
  | download
  | gitClone
  | copyDir
  | copyFile
deriving DecidableEq

/-- The recognition gate
`resource.startswith(('https://', 'git://', '/'))` (src/offline.py line 530). -/
def resourceRecognized (r : String) : Bool :=
  strStartsWith "https://" r || strStartsWith "git://" r || strStartsWith "/" r

/-- Dispatch for one descriptor inside
`BobTheBuilder.copy_in_external_resources` (src/offline.py lines 526-549):
empty entries are skipped; descriptors failing the recognition gate are
logged and skipped; then `https://` prefixes are downloaded, `git://`
prefixes or `.git` suffixes are git-cloned, and the remaining (local-path)
descriptors are copied, recursively when `os.path.isdir` holds. -/
def dispatch_resource (isDir : String → Bool) (r : String) : ResourceAction :=
  if r = "" then .skipEmpty
  else if ! resourceRecognized r then .skipUnrecognized
  else if strStartsWith "https://" r then .download
  else if strStartsWith "git://" r || strEndsWith ".git" r then .gitClone
  else if isDir r then .copyDir
  else .copyFile

/- The staging loop itself is modelled further below (after `download_file`,
which its `https://` branch calls), with its uncaught exception paths. -/

/- ---------------------------------------------------------------------- -/
/- create_build_dir_for_conf (src/offline.py lines 252-261)               -/
/- ---------------------------------------------------------------------- -/

/-- A filesystem tree: a file with byte content, or a directory with named
entries. -/
inductive FsTree where
  | file (content : String)
  | dir (entries : List (String × FsTree))

/-- First entry with the given name in a directory listing. -/
def findEntry (n : String) : List (String × FsTree) → Option FsTree
  | [] => none
  | (m, t) :: rest => if m = n then some t else findEntry n rest

/-- Content of the file reached by following a path into a tree. -/
def readTree : FsTree → List String → Option String
  | .file c, [] => some c
  | .dir _, [] => none
  | .file _, _ :: _ => none
  | .dir es, n :: p =>
      match findEntry n es with
      | none => none
      | some t => readTree t p

/-- Content of the file at a path under the build directory. -/
def readPath (dest : List (String × FsTree)) (p : List String) : Option String :=
  readTree (.dir dest) p

/-- One iteration of the template-copy loop (src/offline.py lines 254-259):
the glob entry `obj` is copied (as a whole tree via `copytree`, or as a
file via `copy2`) only when `(build_dir / basename).exists() is False`;
an already-present basename is skipped entirely. -/
def copy_template_entry (dest : List (String × FsTree)) (e : String × FsTree) :
    List (String × FsTree) :=
  match findEntry e.fst dest with
  | some _ => dest
  | none => dest ++ [e]

/-- The trailing `self._pacman_temporary_database.mkdir(parents=True,
exist_ok=True)` (src/offline.py line 261): creates the `tmp.pacdb`
directory under the build directory when absent, touching nothing that
exists. -/
def mkdir_tmp_pacdb (dest : List (String × FsTree)) : List (String × FsTree) :=
  match findEntry "tmp.pacdb" dest with
  | some _ => dest
  | none => dest ++ [("tmp.pacdb", .dir [])]

/-- `BobTheBuilder.create_build_dir_for_conf` (src/offline.py lines
252-261): for each top-level object of the archiso template, copy it in
only if its basename is not yet present in the build directory, then
ensure the temporary pacman database directory exists. -/
def create_build_dir_for_conf (template dest : List (String × FsTree)) :
    List (String × FsTree) :=
  mkdir_tmp_pacdb (template.foldl copy_template_entry dest)

lemma findEntry_append_of_some {n : String} {d : List (String × FsTree)}
    {t : FsTree} (h : findEntry n d = some t) (xs : List (String × FsTree)) :
    findEntry n (d ++ xs) = some t := by
  induction d with
  | nil => simp [findEntry] at h
  | cons e rest ih =>
      obtain ⟨m, te⟩ := e
      by_cases hm : m = n
      · subst hm
        simp [findEntry] at h
        simp [findEntry, h]
      · simp [findEntry, hm] at h
        simp [findEntry, hm, ih h]

lemma readTree_dir_append {d : List (String × FsTree)} {p : List String}
    {c : String} (h : readTree (.dir d) p = some c) (xs : List (String × FsTree)) :
    readTree (.dir (d ++ xs)) p = some c := by
  cases p with
  | nil => simp [readTree] at h
  | cons n rest =>
      simp only [readTree] at h ⊢
      cases hf : findEntry n d with
      | none => rw [hf] at h; exact absurd h (by simp)
      | some t =>
          rw [hf] at h
          rw [findEntry_append_of_some hf xs]
          exact h

lemma copy_template_entry_preserves {dest : List (String × FsTree)}
    {p : List String} {c : String} (e : String × FsTree)
    (h : readPath dest p = some c) :
    readPath (copy_template_entry dest e) p = some c := by
  unfold copy_template_entry
  cases findEntry e.fst dest with
  | some _ => exact h
  | none => exact readTree_dir_append h [e]

lemma foldl_copy_preserves (template : List (String × FsTree))
    {dest : List (String × FsTree)} {p : List String} {c : String}
    (h : readPath dest p = some c) :
    readPath (template.foldl copy_template_entry dest) p = some c := by
  induction template generalizing dest with
  | nil => exact h
  | cons e rest ih =>
      exact ih (copy_template_entry_preserves e h)

lemma mkdir_tmp_pacdb_preserves {dest : List (String × FsTree)}
    {p : List String} {c : String} (h : readPath dest p = some c) :
    readPath (mkdir_tmp_pacdb dest) p = some c := by
  unfold mkdir_tmp_pacdb
  cases findEntry "tmp.pacdb" dest with
  | some _ => exact h
  | none => exact readTree_dir_append h [("tmp.pacdb", FsTree.dir [])]

/-- C5: template materialization never overwrites an existing destination
path: every file present under the build directory before
`create_build_dir_for_conf` has byte-identical content after it, and also
after running the materialization a second time on the same destination. -/
theorem create_build_dir_for_conf_no_overwrite
    (template dest : List (String × FsTree)) (p : List String) (c : String)
    (h : readPath dest p = some c) :
    readPath (create_build_dir_for_conf template dest) p = some c
    ∧ readPath (create_build_dir_for_conf template
        (create_build_dir_for_conf template dest)) p = some c := by
  have h1 : readPath (create_build_dir_for_conf template dest) p = some c :=
    mkdir_tmp_pacdb_preserves (foldl_copy_preserves template h)
  exact ⟨h1, mkdir_tmp_pacdb_preserves (foldl_copy_preserves template h1)⟩

/-- C5 witness: a concrete pre-existing `packages.x86_64` with edited
content survives materializing a template that also carries a
`packages.x86_64`, once and twice. -/
theorem create_build_dir_for_conf_no_overwrite_witness :
    readPath (create_build_dir_for_conf
        [("packages.x86_64", .file "template-list"), ("efiboot", .dir [])]
        [("packages.x86_64", .file "my-edited-list")])
      ["packages.x86_64"] = some "my-edited-list" := by
  exact (create_build_dir_for_conf_no_overwrite
    [("packages.x86_64", .file "template-list"), ("efiboot", .dir [])]
    [("packages.x86_64", .file "my-edited-list")]
    ["packages.x86_64"] "my-edited-list" (by decide)).1

/- ---------------------------------------------------------------------- -/
/- create_pacman_conf_for_sync (src/offline.py lines 284-336)             -/
/- ---------------------------------------------------------------------- -/

/-- `PACMAN_TEMPORARY_BUILD_DB` (src/offline.py line 137): the temporary
pacman database path `f'{BUILD_DIR}/tmp.pacdb/'`, resolved. -/
def pacman_temporary_build_db (buildDir : String) : String :=
  buildDir ++ "/tmp.pacdb"

/-- `PACMAN_CACHE_DIR` (src/offline.py line 138): the package cache
`f'{BUILD_DIR}/airootfs/root/{REPO_NAME}/'`, resolved. -/
def pacman_cache_dir (buildDir repoName : String) : String :=
  buildDir ++ "/airootfs/root/" ++ repoName

/-- `BobTheBuilder.get_mirrors_from_archinstall` with a `--mirror-region`
argument (src/offline.py lines 292-294): the mirror URLs of
`archinstall.list_mirrors()` for the given region, here abstracted as a
region-indexed table. -/
def get_mirrors_from_archinstall (mirrorDb : String → List String) (region : String) :
    List String :=
  mirrorDb region

/-- One `Server = {mirror}` line (src/offline.py line 326). -/
def serverLine (m : String) : String :=
  "Server = " ++ m

/-- The lines the `{mirror_str_list}\n` write contributes: the joined
`Server = ...` lines, or a single empty line when no mirror resolved. -/
def mirror_block_lines (mirrors : List String) : List String :=
  match mirrors with
  | [] => [""]
  | _ :: _ => mirrors.map serverLine

/-- The `[options]` block written in 'new' mode, line by line
(src/offline.py lines 313-323), ending with the blank line after
`LocalFileSigLevel`. -/
def options_block_lines (dbPath cacheDir : String) : List String :=
  ["[options]",
   "DBPath      = " ++ dbPath,
   "CacheDir    = " ++ cacheDir,
   "HoldPkg     = pacman glibc",
   "Architecture = auto",
   "",
   "CheckSpace",
   "",
   "SigLevel    = Required DatabaseOptional",
   "LocalFileSigLevel = Optional",
   ""]

/-- Line rewriting of the 'copy' mode (src/offline.py lines 299-308): a
host line mentioning `DBPath` or `CacheDir` is replaced by the
corresponding build-directory directive, all other lines pass verbatim. -/
def copy_conf_line (dbPath cacheDir line : String) : String :=
  if strContainsSub "DBPath" line then "DBPath      = " ++ dbPath
  else if strContainsSub "CacheDir" line then "CacheDir    = " ++ cacheDir
  else line

/-- `BobTheBuilder.create_pacman_conf_for_sync` (src/offline.py lines
298-336), as the list of lines written to `pacman.sync.conf`: 'copy' mode
maps the host configuration line-wise; every other mode (the source
comments `# mode == 'new'`) writes the fixed `[options]` block, one extra
blank line, then `[core]`, `[extra]`, `[community]` sections each carrying
the same joined mirror list. -/
def create_pacman_conf_for_sync (mode : String) (hostConf : List String)
    (dbPath cacheDir : String) (mirrors : List String) : List String :=
  if mode = "copy" then
    hostConf.map (copy_conf_line dbPath cacheDir)
  else
    options_block_lines dbPath cacheDir ++ [""]
      ++ ["[core]"] ++ mirror_block_lines mirrors
      ++ ["[extra]"] ++ mirror_block_lines mirrors
      ++ ["[community]"] ++ mirror_block_lines mirrors

/-- A pacman conf section header line: one starting with the bracket. -/
def sectionHeaderLine (l : String) : Bool :=
  lineHead l == some '['

/-- The section header lines of a written conf, in order. -/
def bracketLines (lines : List String) : List String :=
  lines.filter sectionHeaderLine

lemma sectionHeaderLine_serverLine (m : String) :
    sectionHeaderLine (serverLine m) = false := rfl

lemma filter_sectionHeader_serverLines (ms : List String) :
    (ms.map serverLine).filter sectionHeaderLine = [] := by
  induction ms with
  | nil => rfl
  | cons m rest ih => simp [List.filter, sectionHeaderLine_serverLine, ih]

lemma mirror_block_lines_of_ne {ms : List String} (h : ms ≠ []) :
    mirror_block_lines ms = ms.map serverLine := by
  cases ms with
  | nil => exact absurd rfl h
  | cons m rest => rfl

/-- C6: in 'new' mode with a region resolving to a non-empty mirror list,
the written sync config consists of the `[options]` block (whose `DBPath`
and `CacheDir` directives point at paths inside the build directory,
namely `<build>/tmp.pacdb` and `<build>/airootfs/root/<repo>`) followed by
exactly the three repository sections `[core]`, `[extra]`, `[community]`,
each listing every resolved mirror as a `Server = ...` line with the same
server list for all three. -/
theorem create_pacman_conf_for_sync_new_shape (bd repo region : String)
    (mirrorDb : String → List String) (host : List String) (mirrors : List String)
    (hmir : mirrors = get_mirrors_from_archinstall mirrorDb region)
    (hne : mirrors ≠ []) :
    create_pacman_conf_for_sync "new" host (pacman_temporary_build_db bd)
        (pacman_cache_dir bd repo) mirrors
      = options_block_lines (pacman_temporary_build_db bd) (pacman_cache_dir bd repo)
        ++ [""] ++ ["[core]"] ++ mirrors.map serverLine
        ++ ["[extra]"] ++ mirrors.map serverLine
        ++ ["[community]"] ++ mirrors.map serverLine
    ∧ bracketLines (create_pacman_conf_for_sync "new" host (pacman_temporary_build_db bd)
        (pacman_cache_dir bd repo) mirrors)
      = ["[options]", "[core]", "[extra]", "[community]"]
    ∧ (∃ sub : String, pacman_temporary_build_db bd = bd ++ sub)
    ∧ (∃ sub : String, pacman_cache_dir bd repo = bd ++ sub) := by
  have hshape : create_pacman_conf_for_sync "new" host (pacman_temporary_build_db bd)
      (pacman_cache_dir bd repo) mirrors
    = options_block_lines (pacman_temporary_build_db bd) (pacman_cache_dir bd repo)
      ++ [""] ++ ["[core]"] ++ mirrors.map serverLine
      ++ ["[extra]"] ++ mirrors.map serverLine
      ++ ["[community]"] ++ mirrors.map serverLine := by
    unfold create_pacman_conf_for_sync
    rw [if_neg (by decide), mirror_block_lines_of_ne hne]
  refine ⟨hshape, ?_, ⟨"/tmp.pacdb", rfl⟩, ⟨"/airootfs/root/" ++ repo, by
    unfold pacman_cache_dir
    rw [String.append_assoc]⟩⟩
  rw [bracketLines, hshape]
  have hopts : (options_block_lines (pacman_temporary_build_db bd)
      (pacman_cache_dir bd repo)).filter sectionHeaderLine = ["[options]"] := rfl
  simp only [List.filter_append, hopts, filter_sectionHeader_serverLines]
  rfl

/-- C6 witness: the Sweden region of a concrete mirror table yields two
mirrors; the written config has exactly the four headers and both path
directives sit inside the build directory. -/
theorem create_pacman_conf_for_sync_new_shape_witness :
    bracketLines (create_pacman_conf_for_sync "new" []
        (pacman_temporary_build_db "/root/archiso_offline")
        (pacman_cache_dir "/root/archiso_offline" "localrepo")
        ["https://ftp.acc.umu.se/mirror/archlinux/", "https://mirror.osbeck.com/archlinux/"])
      = ["[options]", "[core]", "[extra]", "[community]"] := by
  exact (create_pacman_conf_for_sync_new_shape "/root/archiso_offline" "localrepo" "Sweden"
    (fun r => if r = "Sweden" then
        ["https://ftp.acc.umu.se/mirror/archlinux/", "https://mirror.osbeck.com/archlinux/"]
      else [])
    [] ["https://ftp.acc.umu.se/mirror/archlinux/", "https://mirror.osbeck.com/archlinux/"]
    (by rfl) (by decide)).2.1

/- ---------------------------------------------------------------------- -/
/- download_file and build_aur_packages (src/offline.py 142-152, 352-466) -/
/- ---------------------------------------------------------------------- -/

/-- What the world does when `download_file` runs for a URL: the fetch
succeeds; or the destination path is an existing file (the only case in
which the function returns `False`, src/offline.py lines 146-147); or
`urllib.request.urlretrieve` raises (network/HTTP failure,
src/offline.py line 149) — there is no handler inside `download_file`. -/
inductive FetchOutcome where
  | fetchOk
  | destIsFile
  | raisesError
deriving DecidableEq

/-- `download_file` (src/offline.py lines 142-152): returns `False` only
when the destination is an existing file; a retrieval failure propagates
as an uncaught exception (`Except.error`); otherwise the fetched file is
moved into place and `True` is returned. -/
def download_file (f : FetchOutcome) : Except Unit Bool :=
  match f with
  | .destIsFile => .ok false
  | .raisesError => .error ()
  | .fetchOk => .ok true

/-- Per-package world observations for one iteration of the AUR build
loop: whether `package_exists` finds it cached, how its snapshot fetch
behaves, the `makepkg` exit code, and the `*.tar.zst` glob results. -/
structure AurPkgEnv where
  cached : Bool
  fetch : FetchOutcome
  buildExitCode : Nat
  builtArtifacts : List String
deriving DecidableEq

/-- How one iteration of the loop body ends (src/offline.py lines
394-442): cached packages are skipped; `download_file` returning `False`
is logged and skipped; a nonzero `makepkg` exit is logged and skipped; a
zero exit with no `*.tar.zst` artifact is logged and skipped; otherwise
the artifacts are moved into the repository cache. -/
inductive StepResult where
  | skippedCached
  | fetchSkipLogged
  | buildFailLogged
  | noArtifactLogged
  | builtOk
deriving DecidableEq

/-- One iteration of the `for package in self.aur_packages` body
(src/offline.py lines 394-442).  A `raisesError` fetch escapes as an
uncaught exception. -/
def process_aur_package (rebuild : Bool) (e : AurPkgEnv) : Except Unit StepResult :=
  if e.cached && ! rebuild then .ok .skippedCached
  else
    match download_file e.fetch with
    | .error u => .error u
    | .ok false => .ok .fetchSkipLogged
    | .ok true =>
        if e.buildExitCode ≠ 0 then .ok .buildFailLogged
        else
          match e.builtArtifacts with
          | [] => .ok .noArtifactLogged
          | _ :: _ => .ok .builtOk

/-- The whole per-package loop, sequential and exception-propagating. -/
def build_aur_loop (rebuild : Bool) : List AurPkgEnv → Except Unit (List StepResult)
  | [] => .ok []
  | e :: rest =>
      match process_aur_package rebuild e with
      | .error u => .error u
      | .ok r =>
          match build_aur_loop rebuild rest with
          | .error u => .error u
          | .ok rs => .ok (r :: rs)

/-- Host account state observed and mutated by `build_aur_packages`: the
`id {user}` lookup, the lines of `/etc/sudoers`, and whether the drop-in
`/etc/sudoers.d/{user}` exists. -/
structure SysState where
  userExists : Bool
  sudoersLines : List String
  sudoersDropIn : Bool
deriving DecidableEq

/-- The account/grant operations the phase can perform. -/
inductive AdminAction where
  | useradd
  | userdel
  | writeDropIn
  | unlinkDropIn
  | rewriteSudoers
deriving DecidableEq

/-- The `/etc/sudoers` scan of src/offline.py lines 369-374: a line counts
as an existing grant when it mentions the user and is not a comment. -/
def grant_line (user line : String) : Bool :=
  strContainsSub user line && ! strStartsWith "#" line

/-- `BobTheBuilder.build_aur_packages` (src/offline.py lines 352-466),
restricted to the observable account/grant lifecycle around the loop:
early return on an empty package list; detection of a pre-existing user
(`id`), of a sudoers grant line, and of the drop-in file; creation of the
missing user and missing drop-in; the per-package loop (whose uncaught
fetch exception aborts everything that follows, teardown included); then
teardown of exactly the entities this run created. -/
def build_aur_packages (user : String) (rebuild : Bool) (st : SysState)
    (envs : List AurPkgEnv) :
    Except Unit (SysState × List AdminAction × List StepResult) :=
  if envs.length = 0 then .ok (st, [], [])
  else
    let foundUser := st.userExists
    let inSudoers := st.sudoersLines.any (grant_line user)
    let foundEntry := inSudoers || st.sudoersDropIn
    let st1 := if foundUser then st else { st with userExists := true }
    let st2 := if foundEntry then st1 else { st1 with sudoersDropIn := true }
    let acts1 := (if foundUser then ([] : List AdminAction) else [.useradd])
      ++ (if foundEntry then ([] : List AdminAction) else [.writeDropIn])
    match build_aur_loop rebuild envs with
    | .error u => .error u
    | .ok results =>
        let st3 := if foundUser then st2 else { st2 with userExists := false }
        let acts2 := if foundUser then ([] : List AdminAction) else [.userdel]
        let stepFour :=
          if foundEntry then (st3, ([] : List AdminAction))
          else if inSudoers then
            ({ st3 with sudoersLines := st.sudoersLines }, [AdminAction.rewriteSudoers])
          else
            ({ st3 with sudoersDropIn := false }, [AdminAction.unlinkDropIn])
        .ok (stepFour.fst, acts1 ++ acts2 ++ stepFour.snd, results)

/-- Whether the pipeline (main, src/offline.py lines 610-611) gets past
`build_aur_packages` and on to `download_package_list` (the sync step),
the repository-index step and the image build. -/
def pipeline_reaches_sync (user : String) (rebuild : Bool) (st : SysState)
    (envs : List AurPkgEnv) : Bool :=
  match build_aur_packages user rebuild st envs with
  | .ok _ => true
  | .error _ => false

/-- A host where neither the build user nor any sudo grant pre-exists. -/
def st_example : SysState :=
  ⟨false, ["root ALL=(ALL) ALL"], false⟩

/-- A package whose snapshot retrieval raises (e.g. HTTP 404). -/
def env_fetch_raises : AurPkgEnv := ⟨false, .raisesError, 0, []⟩

/-- A package whose `makepkg` exits nonzero. -/
def env_build_fails : AurPkgEnv := ⟨false, .fetchOk, 1, []⟩

/-- A package whose `makepkg` exits 0 but leaves no `*.tar.zst`. -/
def env_no_artifact : AurPkgEnv := ⟨false, .fetchOk, 0, []⟩

/-- A package that fetches and builds cleanly. -/
def env_builds : AurPkgEnv :=
  ⟨false, .fetchOk, 0, ["/home/aoffline_usr/p/p-1-x86_64.pkg.tar.zst"]⟩

/-- C1: a failing snapshot fetch is NOT skipped: `urlretrieve`'s exception
is uncaught (there is no try/except around the `download_file` call at
src/offline.py line 404), so the whole AUR phase — teardown included —
aborts and the pipeline never reaches the sync step, contrary to the
claimed log-and-continue behaviour; by contrast a nonzero build exit and
a zero exit without artifacts really are logged and skipped, with the
pipeline continuing. -/
theorem build_aur_fetch_error_aborts_run :
    build_aur_packages "aoffline_usr" false st_example [env_fetch_raises] = .error ()
    ∧ pipeline_reaches_sync "aoffline_usr" false st_example [env_fetch_raises] = false
    ∧ build_aur_loop false [env_build_fails, env_no_artifact]
        = .ok [.buildFailLogged, .noArtifactLogged]
    ∧ pipeline_reaches_sync "aoffline_usr" false st_example
        [env_build_fails, env_no_artifact] = true := by
  exact ⟨rfl, rfl, rfl, rfl⟩

/-- C7: when the AUR phase completes, account and grant teardown is exactly
symmetric with creation: the final existence state of the build user, the
drop-in grant and the sudoers lines equals the initial one; a
not-pre-existing user is created and removed (`userdel` runs) while a
pre-existing one is never touched by `useradd`/`userdel`; a
not-pre-existing grant is written and unlinked, while a pre-existing grant
(sudoers line or drop-in) is neither rewritten nor removed. -/
theorem build_aur_user_teardown_symmetric (user : String) (rebuild : Bool)
    (st st2 : SysState) (envs : List AurPkgEnv)
    (acts : List AdminAction) (res : List StepResult)
    (hne : envs ≠ [])
    (hrun : build_aur_packages user rebuild st envs = .ok (st2, acts, res)) :
    st2.userExists = st.userExists
    ∧ st2.sudoersDropIn = st.sudoersDropIn
    ∧ st2.sudoersLines = st.sudoersLines
    ∧ (st.userExists = false → AdminAction.userdel ∈ acts)
    ∧ (st.userExists = true → AdminAction.useradd ∉ acts ∧ AdminAction.userdel ∉ acts)
    ∧ ((st.sudoersLines.any (grant_line user) || st.sudoersDropIn) = false →
        AdminAction.writeDropIn ∈ acts ∧ AdminAction.unlinkDropIn ∈ acts)
    ∧ ((st.sudoersLines.any (grant_line user) || st.sudoersDropIn) = true →
        AdminAction.writeDropIn ∉ acts ∧ AdminAction.unlinkDropIn ∉ acts
        ∧ AdminAction.rewriteSudoers ∉ acts) := by
  obtain ⟨u, lines, d⟩ := st
  have hlen : ¬ (envs.length = 0) := by
    simpa [List.length_eq_zero] using hne
  unfold build_aur_packages at hrun
  rw [if_neg hlen] at hrun
  cases hl : build_aur_loop rebuild envs with
  | error u2 =>
      rw [hl] at hrun
      exact absurd hrun (by simp)
  | ok results =>
      rw [hl] at hrun
      cases u <;> cases d <;> cases hs : lines.any (grant_line user) <;>
        rw [hs] at hrun <;> simp at hrun <;>
        obtain ⟨rfl, rfl, rfl⟩ := hrun <;>
        simp [hs]

/-- C7 witness: on a host with no pre-existing build user and no grant, a
one-package run creates and then removes both (`userdel` among the
performed actions, final state identical to the initial one). -/
theorem build_aur_user_teardown_symmetric_witness :
    build_aur_packages "aoffline_usr" false st_example [env_builds]
      = .ok (st_example,
          [AdminAction.useradd, AdminAction.writeDropIn,
           AdminAction.userdel, AdminAction.unlinkDropIn],
          [StepResult.builtOk])
    ∧ AdminAction.userdel ∈
        [AdminAction.useradd, AdminAction.writeDropIn,
         AdminAction.userdel, AdminAction.unlinkDropIn] := by
  constructor
  · rfl
  · exact (build_aur_user_teardown_symmetric "aoffline_usr" false st_example st_example
      [env_builds]
      [AdminAction.useradd, AdminAction.writeDropIn,
       AdminAction.userdel, AdminAction.unlinkDropIn]
      [StepResult.builtOk] (by decide) (by rfl)).2.2.2.1 rfl

/- ---------------------------------------------------------------------- -/
/- The resource staging loop (src/offline.py lines 521-550)               -/
/- ---------------------------------------------------------------------- -/

/-- Per-descriptor world observations for one iteration of the staging
loop: how the `download_file` call at src/offline.py line 535 behaves
(same `FetchOutcome` as the AUR fetch: its `urlretrieve` raise is
uncaught here too), whether the `git clone` SysCommand raises
`SysCallError` (which line 542 catches), whether `os.path.isdir` holds,
and whether `shutil.copytree`/`shutil.copy2` (lines 547/549, no handler)
raise. -/
structure ResourceEnv where
  fetch : FetchOutcome
  cloneRaises : Bool
  isDir : Bool
  copyRaises : Bool
deriving DecidableEq

/-- How one loop iteration ends when it does not raise: the two logged
skips of the gate, a completed or logged-and-skipped download, a completed
or logged-and-skipped clone, or a completed copy. -/
inductive ResourceStep where
  | skipEmpty
  | skipUnrecognized
  | downloaded
  | downloadSkipLogged
  | cloned
  | cloneFailLogged
  | copiedDir
  | copiedFile
deriving DecidableEq

/-- Effect of the dispatched branch (src/offline.py lines 534-549): the
`https://` branch propagates `download_file`'s uncaught exception and
logs-and-skips its `False` return; the git branch catches `SysCallError`
and logs-and-skips; the local-copy branches have no handler, so a raising
`copytree`/`copy2` propagates; the two skip outcomes of the gate perform
no effect at all. -/
def perform_resource_action (env : ResourceEnv) : ResourceAction → Except Unit ResourceStep
  | .skipEmpty => .ok .skipEmpty
  | .skipUnrecognized => .ok .skipUnrecognized
  | .download =>
      match download_file env.fetch with
      | .error u => .error u
      | .ok false => .ok .downloadSkipLogged
      | .ok true => .ok .downloaded
  | .gitClone => if env.cloneRaises then .ok .cloneFailLogged else .ok .cloned
  | .copyDir => if env.copyRaises then .error () else .ok .copiedDir
  | .copyFile => if env.copyRaises then .error () else .ok .copiedFile

/-- One full iteration of the `for resource in resources` body: dispatch
by shape, then perform the chosen branch's effect. -/
def process_resource (env : ResourceEnv) (r : String) : Except Unit ResourceStep :=
  perform_resource_action env (dispatch_resource (fun _ => env.isDir) r)

/-- `BobTheBuilder.copy_in_external_resources` (src/offline.py lines
521-550): the sequential loop over the descriptor list; an uncaught
exception in one iteration aborts the remaining iterations (and the run). -/
def copy_in_external_resources (env : String → ResourceEnv) :
    List String → Except Unit (List ResourceStep)
  | [] => .ok []
  | r :: rest =>
      match process_resource (env r) r with
      | .error u => .error u
      | .ok s =>
          match copy_in_external_resources env rest with
          | .error u => .error u
          | .ok rs => .ok (s :: rs)

/-- The model keeps the loop's abort path: an HTTPS descriptor whose
retrieval raises stops the iteration before later descriptors. -/
lemma copy_in_external_resources_raise_aborts :
    copy_in_external_resources (fun _ => ⟨.raisesError, false, false, false⟩)
      ["https://example.com/a.txt", "/etc/motd"] = .error () := rfl

/-- A world in which every descriptor's effect succeeds. -/
def resource_env_ok : ResourceEnv := ⟨.fetchOk, false, false, false⟩

/-- C4: resource staging dispatches every descriptor by shape: an HTTPS
URL is downloaded; a recognized `git://`-prefixed or `.git`-suffixed
descriptor (that is not an HTTPS URL) is git-cloned; any other recognized
descriptor is treated as a local path and copied, recursively when it is a
directory; and a descriptor of unrecognized shape is logged and skipped
and never aborts the pipeline: its iteration performs no effect, cannot
raise, and the loop then continues over the remaining descriptors exactly
as it would without it (recognized descriptors' own effects, by contrast,
can still raise and abort). -/
theorem copy_in_external_resources_dispatch (env : String → ResourceEnv)
    (isDir : String → Bool) (r : String) (rest : List String)
    (steps : List ResourceStep) (hne : r ≠ "") :
    (strStartsWith "https://" r = true → dispatch_resource isDir r = .download)
    ∧ (resourceRecognized r = true → strStartsWith "https://" r = false →
        (strStartsWith "git://" r || strEndsWith ".git" r) = true →
        dispatch_resource isDir r = .gitClone)
    ∧ (resourceRecognized r = true → strStartsWith "https://" r = false →
        (strStartsWith "git://" r || strEndsWith ".git" r) = false →
        dispatch_resource isDir r = (if isDir r then .copyDir else .copyFile))
    ∧ (resourceRecognized r = false → dispatch_resource isDir r = .skipUnrecognized)
    ∧ (resourceRecognized r = false → process_resource (env r) r = .ok .skipUnrecognized)
    ∧ (resourceRecognized r = false → copy_in_external_resources env rest = .ok steps →
        copy_in_external_resources env (r :: rest) = .ok (.skipUnrecognized :: steps)) := by
  have hdisp : ∀ f : String → Bool, resourceRecognized r = false →
      dispatch_resource f r = .skipUnrecognized := by
    intro f hrec
    simp [dispatch_resource, hne, hrec]
  have hproc : resourceRecognized r = false →
      process_resource (env r) r = .ok .skipUnrecognized := by
    intro hrec
    unfold process_resource
    rw [hdisp _ hrec]
    rfl
  refine ⟨?_, ?_, ?_, hdisp isDir, hproc, ?_⟩
  · intro hh
    have hrec : resourceRecognized r = true := by
      simp [resourceRecognized, hh]
    simp [dispatch_resource, hne, hrec, hh]
  · intro hrec hh hg
    simp [dispatch_resource, hne, hrec, hh, hg]
  · intro hrec hh hg
    simp [dispatch_resource, hne, hrec, hh, hg]
  · intro hrec hrest
    simp only [copy_in_external_resources]
    rw [hproc hrec, hrest]

/-- C4 witness: concrete descriptors of each shape take the claimed
actions, and an unrecognized descriptor at the head of a concrete list is
skipped while the rest of the loop runs to completion. -/
theorem copy_in_external_resources_dispatch_witness :
    dispatch_resource (fun _ => false) "https://example.com/a.txt" = .download
    ∧ dispatch_resource (fun _ => false) "/opt/repo.git" = .gitClone
    ∧ dispatch_resource (fun _ => false) "/etc/motd" = .copyFile
    ∧ dispatch_resource (fun _ => false) "ftp://example.com/x" = .skipUnrecognized
    ∧ process_resource resource_env_ok "ftp://example.com/x" = .ok .skipUnrecognized
    ∧ copy_in_external_resources (fun _ => resource_env_ok)
        ["ftp://example.com/x", "https://example.com/a.txt"]
      = .ok [.skipUnrecognized, .downloaded] := by
  refine ⟨?_, ?_, ?_, ?_, ?_, ?_⟩
  · exact (copy_in_external_resources_dispatch (fun _ => resource_env_ok) (fun _ => false)
      "https://example.com/a.txt" [] [] (by decide)).1 (by decide)
  · exact (copy_in_external_resources_dispatch (fun _ => resource_env_ok) (fun _ => false)
      "/opt/repo.git" [] [] (by decide)).2.1 (by decide) (by decide) (by decide)
  · exact (copy_in_external_resources_dispatch (fun _ => resource_env_ok) (fun _ => false)
      "/etc/motd" [] [] (by decide)).2.2.1 (by decide) (by decide) (by decide)
  · exact (copy_in_external_resources_dispatch (fun _ => resource_env_ok) (fun _ => false)
      "ftp://example.com/x" [] [] (by decide)).2.2.2.1 (by decide)
  · exact (copy_in_external_resources_dispatch (fun _ => resource_env_ok) (fun _ => false)
      "ftp://example.com/x" [] [] (by decide)).2.2.2.2.1 (by decide)
  · exact (copy_in_external_resources_dispatch (fun _ => resource_env_ok) (fun _ => false)
      "ftp://example.com/x" ["https://example.com/a.txt"] [.downloaded]
      (by decide)).2.2.2.2.2 (by decide) (by rfl)
